import Mathlib

/-!
Shallow embedding of `src/vfs/vfscommon/options.go` (package `vfscommon`):
the VFS configuration record `Options`, its default instance `DefaultOpt`,
the glob-compilation helper `initializeExclusionPatterns`, and the
normalization entry point `Options.Init`.

Machine-integer modelling: `os.FileMode` is a Go `uint32`, modelled as `Nat`
with explicit reduction mod `2 ^ 32` at the conversion `os.FileMode(opt.Umask)`
(the bitwise operations themselves cannot leave the 32-bit range on operands
below `2 ^ 32`); `time.Duration` and `fs.SizeSuffix` are `int64`, modelled as
`Int` (no arithmetic is performed on them in this file's code, so no overflow
reduction arises); `uint32` UID/GID are modelled as `Nat`.

External collaborators that are not part of this source file are made
explicit: `filter.GlobToRegexp` becomes a function parameter
`globToRegexp : String → Bool → Except String Regexp`, the `fs.Errorf`
emissions are collected into a diagnostics list, the `runtime.GOOS` read
becomes a string parameter of `DefaultOpt`, and every call made to the glob
translator is recorded in a trace `(glob, caseSensitiveFlag)` so that the
flag passed on each invocation is visible in theorems.
-/

namespace VfsCommon

/-- A compiled path matcher (Go `*regexp.Regexp`): opaque to this component,
identified by the text the translator produced it from. -/
structure Regexp where
  source : String
deriving DecidableEq, Repr

/-- Modelled from the spec: the cache-mode enumeration (off / minimal /
writes / full) is defined by an external collaborator (it is stored here but
never inspected); the default record uses the `off` constant
(`CacheModeOff`). -/
inductive CacheMode where
  | off
  | minimal
  | writes
  | full
deriving DecidableEq, Repr

/-- A diagnostic emitted through `fs.Errorf`: the subject (the offending glob
string) and the underlying compilation error. -/
structure Diag where
  subject : String
  cause : String
deriving DecidableEq, Repr

def timeMillisecond : Int := 1000000

def timeSecond : Int := 1000 * timeMillisecond

def timeMinute : Int := 60 * timeSecond

def fsMebi : Int := 1048576

/-- `os.ModeDir`: the is-directory marker bit, the top bit of the 32-bit
`FileMode`. -/
def ModeDir : Nat := 2 ^ 31

/-- The Go conversion `os.FileMode(i)` from an `int`: truncation to `uint32`. -/
def toFileMode (i : Int) : Nat := (i % (2 : Int) ^ 32).toNat

/-- The Go unary `^m` on a `uint32` operand: bitwise complement inside 32
bits. -/
def complement32 (m : Nat) : Nat := (m % 2 ^ 32) ^^^ (2 ^ 32 - 1)

/-- The `Options` struct of `options.go`, field for field and in source
order. -/
structure Options where
  NoSeek : Bool
  NoChecksum : Bool
  ReadOnly : Bool
  NoModTime : Bool
  DirCacheTime : Int
  PollInterval : Int
  Umask : Int
  UID : Nat
  GID : Nat
  DirPerms : Nat
  FilePerms : Nat
  ChunkSize : Int
  ChunkSizeLimit : Int
  CacheMode : CacheMode
  CacheMaxAge : Int
  CacheMaxSize : Int
  CacheMinFreeSpace : Int
  CachePollInterval : Int
  CaseInsensitive : Bool
  WriteWait : Int
  ReadWait : Int
  WriteBack : Int
  ReadAhead : Int
  UsedIsSize : Bool
  FastFingerprint : Bool
  DiskSpaceTotalSize : Int
  VfsUploadExclude : List String
  VfsExcludeRegex : List Regexp
deriving DecidableEq, Repr

/-- `DefaultOpt`, with the `runtime.GOOS` read made an explicit parameter.
Fields absent from the Go composite literal (`FastFingerprint`,
`VfsUploadExclude`, `VfsExcludeRegex`, `NoSeek` is present, etc.) take Go's
zero value. -/
def DefaultOpt (goos : String) : Options where
  NoModTime := false
  NoChecksum := false
  NoSeek := false
  DirCacheTime := 5 * 60 * timeSecond
  PollInterval := timeMinute
  ReadOnly := false
  Umask := 0
  UID := 2 ^ 32 - 1
  GID := 2 ^ 32 - 1
  DirPerms := 0o777
  FilePerms := 0o666
  CacheMode := CacheMode.off
  CacheMaxAge := 3600 * timeSecond
  CachePollInterval := 60 * timeSecond
  ChunkSize := 128 * fsMebi
  ChunkSizeLimit := -1
  CacheMaxSize := -1
  CacheMinFreeSpace := -1
  CaseInsensitive := goos == "windows" || goos == "darwin"
  WriteWait := 1000 * timeMillisecond
  ReadWait := 20 * timeMillisecond
  WriteBack := 5 * timeSecond
  ReadAhead := 0 * fsMebi
  UsedIsSize := false
  FastFingerprint := false
  DiskSpaceTotalSize := -1
  VfsUploadExclude := []
  VfsExcludeRegex := []

/-- The for-loop body of `initializeExclusionPatterns`, processed front to
back: returns the list of compiled patterns appended on success, the
diagnostics emitted on failure, and the trace of `(glob, caseSensitive)`
calls made to the translator. -/
def exclusionLoop (globToRegexp : String → Bool → Except String Regexp) :
    List String → List Regexp × List Diag × List (String × Bool)
  | [] => ([], [], [])
  | p :: rest =>
    let r := exclusionLoop globToRegexp rest
    match globToRegexp p true with
    | Except.error err => (r.1, ⟨p, err⟩ :: r.2.1, (p, true) :: r.2.2)
    | Except.ok regexPat => (regexPat :: r.1, r.2.1, (p, true) :: r.2.2)

/-- `initializeExclusionPatterns`: compile each glob of `VfsUploadExclude`
in order, appending successes to `VfsExcludeRegex`, skipping failures with a
diagnostic. -/
def initializeExclusionPatterns (globToRegexp : String → Bool → Except String Regexp)
    (opt : Options) : Options × List Diag × List (String × Bool) :=
  let r := exclusionLoop globToRegexp opt.VfsUploadExclude
  ({ opt with VfsExcludeRegex := opt.VfsExcludeRegex ++ r.1 }, r.2.1, r.2.2)

/-- `Options.Init`: mask `DirPerms` and `FilePerms` with the complement of
the umask, force the `ModeDir` bit on `DirPerms`, compile the exclusion
globs. -/
def Options.Init (globToRegexp : String → Bool → Except String Regexp)
    (opt : Options) : Options × List Diag × List (String × Bool) :=
  let opt1 := { opt with
    DirPerms := opt.DirPerms &&& complement32 (toFileMode opt.Umask),
    FilePerms := opt.FilePerms &&& complement32 (toFileMode opt.Umask) }
  let opt2 := { opt1 with DirPerms := opt1.DirPerms ||| ModeDir }
  initializeExclusionPatterns globToRegexp opt2

/-! Helper lemmas about the embedding. -/

theorem init_fst_dirPerms (g : String → Bool → Except String Regexp)
    (opt : Options) :
    (Options.Init g opt).1.DirPerms
      = (opt.DirPerms &&& complement32 (toFileMode opt.Umask)) ||| ModeDir := rfl

theorem init_fst_filePerms (g : String → Bool → Except String Regexp)
    (opt : Options) :
    (Options.Init g opt).1.FilePerms
      = opt.FilePerms &&& complement32 (toFileMode opt.Umask) := rfl

theorem exclusionLoop_patterns (g : String → Bool → Except String Regexp)
    (l : List String) :
    (exclusionLoop g l).1 = l.filterMap (fun p => (g p true).toOption) := by
  induction l with
  | nil => rfl
  | cons p rest ih =>
    simp only [exclusionLoop, List.filterMap_cons]
    cases h : g p true <;> simp [h, Except.toOption, ih]

theorem exclusionLoop_calls (g : String → Bool → Except String Regexp)
    (l : List String) :
    (exclusionLoop g l).2.2 = l.map (fun p => (p, true)) := by
  induction l with
  | nil => rfl
  | cons p rest ih =>
    simp only [exclusionLoop, List.map_cons]
    cases h : g p true <;> simp [h, ih]

/-- The diagnostic produced for one glob: one `Diag` exactly when compilation
fails. -/
def diagOf (g : String → Bool → Except String Regexp) (p : String) : Option Diag :=
  match g p true with
  | Except.error e => some ⟨p, e⟩
  | Except.ok _ => none

theorem exclusionLoop_diags (g : String → Bool → Except String Regexp)
    (l : List String) :
    (exclusionLoop g l).2.1 = l.filterMap (diagOf g) := by
  induction l with
  | nil => rfl
  | cons p rest ih =>
    simp only [exclusionLoop, List.filterMap_cons, diagOf]
    cases h : g p true <;> simp [h, ih]

theorem init_fst_vfsExcludeRegex (g : String → Bool → Except String Regexp)
    (opt : Options) :
    (Options.Init g opt).1.VfsExcludeRegex
      = opt.VfsExcludeRegex
        ++ opt.VfsUploadExclude.filterMap (fun p => (g p true).toOption) := by
  simp [Options.Init, initializeExclusionPatterns, exclusionLoop_patterns]

theorem init_diags (g : String → Bool → Except String Regexp)
    (opt : Options) :
    (Options.Init g opt).2.1 = opt.VfsUploadExclude.filterMap (diagOf g) := by
  simp [Options.Init, initializeExclusionPatterns, exclusionLoop_diags]

theorem init_calls (g : String → Bool → Except String Regexp)
    (opt : Options) :
    (Options.Init g opt).2.2 = opt.VfsUploadExclude.map (fun p => (p, true)) := by
  simp [Options.Init, initializeExclusionPatterns, exclusionLoop_calls]

theorem land_lor_self (x m : Nat) : (x ||| m) &&& m = m := by
  apply Nat.eq_of_testBit_eq
  intro i
  simp only [Nat.testBit_and, Nat.testBit_or]
  cases x.testBit i <;> cases m.testBit i <;> rfl

/-- C1: for every record, every umask value and every glob translator, the
directory-permission bits coming out of `Init` have the is-directory marker
bit (`ModeDir`) set: `DirPerms &&& ModeDir = ModeDir`. -/
theorem init_dir_marker_set (g : String → Bool → Except String Regexp)
    (opt : Options) :
    (Options.Init g opt).1.DirPerms &&& ModeDir = ModeDir := by
  rw [init_fst_dirPerms]
  exact land_lor_self _ _

theorem land_complement32_land_self (x u : Nat) :
    (x &&& complement32 u) &&& (u % 2 ^ 32) = 0 := by
  apply Nat.eq_of_testBit_eq
  intro i
  simp only [Nat.testBit_and, complement32, Nat.testBit_xor, Nat.testBit_mod_two_pow,
    Nat.testBit_two_pow_sub_one, Nat.zero_testBit]
  cases x.testBit i <;> cases u.testBit i <;> cases Decidable.em (i < 32) <;>
    simp [*]

theorem toFileMode_lt (i : Int) : toFileMode i < 2 ^ 32 := by
  have h : (0 : Int) < 2 ^ 32 := by norm_num
  have := Int.emod_lt_of_pos i h
  have h0 := Int.emod_nonneg i (by norm_num : ((2 : Int) ^ 32) ≠ 0)
  unfold toFileMode
  omega

/-- C2: `Init` sets the file-permission bits to the old bits masked with the
complement of the (32-bit-truncated) umask, so every bit the umask denies is
cleared in the result, and no marker bit is ORed into file bits; on the
concrete scenario umask `0o022`, dir bits `0o777`, file bits `0o666`, `Init`
yields dir bits `0o755 ||| ModeDir` and file bits `0o644`. -/
theorem init_file_perms_masked (g : String → Bool → Except String Regexp)
    (opt : Options) :
    (Options.Init g opt).1.FilePerms
        = opt.FilePerms &&& complement32 (toFileMode opt.Umask)
    ∧ (Options.Init g opt).1.FilePerms &&& toFileMode opt.Umask = 0
    ∧ (Options.Init g
          { opt with Umask := 0o022, DirPerms := 0o777, FilePerms := 0o666 }).1.DirPerms
        = 0o755 ||| ModeDir
    ∧ (Options.Init g
          { opt with Umask := 0o022, DirPerms := 0o777, FilePerms := 0o666 }).1.FilePerms
        = 0o644 := by
  refine ⟨init_fst_filePerms g opt, ?_, ?_, ?_⟩
  · rw [init_fst_filePerms]
    have h := land_complement32_land_self opt.FilePerms (toFileMode opt.Umask)
    rwa [Nat.mod_eq_of_lt (toFileMode_lt opt.Umask)] at h
  · rw [init_fst_dirPerms]
    show (0o777 &&& complement32 (toFileMode 0o022)) ||| ModeDir = 0o755 ||| ModeDir
    decide
  · rw [init_fst_filePerms]
    show 0o666 &&& complement32 (toFileMode 0o022) = 0o644
    decide

/-- C5: for every record and every glob translator, `Init` invokes the
translator once per glob of `VfsUploadExclude`, in order, and every
invocation passes the case-sensitivity flag as `true` (case-sensitive path
matching). -/
theorem init_translator_case_sensitive (g : String → Bool → Except String Regexp)
    (opt : Options) :
    (Options.Init g opt).2.2 = opt.VfsUploadExclude.map (fun p => (p, true)) :=
  init_calls g opt

/-- C6: the default record's case-insensitivity field is computed from the
host operating system identifier, true exactly on "windows" and "darwin" and
false on every other platform. -/
theorem defaultOpt_caseInsensitive_platforms (goos : String) :
    (DefaultOpt goos).CaseInsensitive = true ↔ (goos = "windows" ∨ goos = "darwin") := by
  simp [DefaultOpt]

/-- C9: the canonical default record uses the sentinel `-1` on the unbounded
size fields (`ChunkSizeLimit`, `CacheMaxSize`, `CacheMinFreeSpace`,
`DiskSpaceTotalSize`), the all-ones 32-bit value on `UID` and `GID`, and has
`DirPerms = 0o777`, `FilePerms = 0o666`, `Umask = 0`, on every platform. -/
theorem defaultOpt_sentinels (goos : String) :
    (DefaultOpt goos).ChunkSizeLimit = -1
    ∧ (DefaultOpt goos).CacheMaxSize = -1
    ∧ (DefaultOpt goos).CacheMinFreeSpace = -1
    ∧ (DefaultOpt goos).DiskSpaceTotalSize = -1
    ∧ (DefaultOpt goos).UID = 2 ^ 32 - 1
    ∧ (DefaultOpt goos).GID = 2 ^ 32 - 1
    ∧ (DefaultOpt goos).DirPerms = 0o777
    ∧ (DefaultOpt goos).FilePerms = 0o666
    ∧ (DefaultOpt goos).Umask = 0 :=
  ⟨rfl, rfl, rfl, rfl, rfl, rfl, rfl, rfl, rfl⟩

/-- C7: `Init` mutates only `DirPerms`, `FilePerms` and `VfsExcludeRegex`;
every other field — including the `ChunkSizeLimit` sentinel, every size,
timing, flag, uid/gid and cache-mode field, and the glob list itself — is
returned exactly unchanged. -/
theorem init_frame (g : String → Bool → Except String Regexp) (opt : Options) :
    (Options.Init g opt).1.NoSeek = opt.NoSeek
    ∧ (Options.Init g opt).1.NoChecksum = opt.NoChecksum
    ∧ (Options.Init g opt).1.ReadOnly = opt.ReadOnly
    ∧ (Options.Init g opt).1.NoModTime = opt.NoModTime
    ∧ (Options.Init g opt).1.DirCacheTime = opt.DirCacheTime
    ∧ (Options.Init g opt).1.PollInterval = opt.PollInterval
    ∧ (Options.Init g opt).1.Umask = opt.Umask
    ∧ (Options.Init g opt).1.UID = opt.UID
    ∧ (Options.Init g opt).1.GID = opt.GID
    ∧ (Options.Init g opt).1.ChunkSize = opt.ChunkSize
    ∧ (Options.Init g opt).1.ChunkSizeLimit = opt.ChunkSizeLimit
    ∧ (Options.Init g opt).1.CacheMode = opt.CacheMode
    ∧ (Options.Init g opt).1.CacheMaxAge = opt.CacheMaxAge
    ∧ (Options.Init g opt).1.CacheMaxSize = opt.CacheMaxSize
    ∧ (Options.Init g opt).1.CacheMinFreeSpace = opt.CacheMinFreeSpace
    ∧ (Options.Init g opt).1.CachePollInterval = opt.CachePollInterval
    ∧ (Options.Init g opt).1.CaseInsensitive = opt.CaseInsensitive
    ∧ (Options.Init g opt).1.WriteWait = opt.WriteWait
    ∧ (Options.Init g opt).1.ReadWait = opt.ReadWait
    ∧ (Options.Init g opt).1.WriteBack = opt.WriteBack
    ∧ (Options.Init g opt).1.ReadAhead = opt.ReadAhead
    ∧ (Options.Init g opt).1.UsedIsSize = opt.UsedIsSize
    ∧ (Options.Init g opt).1.FastFingerprint = opt.FastFingerprint
    ∧ (Options.Init g opt).1.DiskSpaceTotalSize = opt.DiskSpaceTotalSize
    ∧ (Options.Init g opt).1.VfsUploadExclude = opt.VfsUploadExclude :=
  ⟨rfl, rfl, rfl, rfl, rfl, rfl, rfl, rfl, rfl, rfl, rfl, rfl, rfl, rfl, rfl,
   rfl, rfl, rfl, rfl, rfl, rfl, rfl, rfl, rfl, rfl⟩

theorem filterMap_toOption_length (g : String → Bool → Except String Regexp)
    (l : List String) (hok : ∀ p ∈ l, ∃ r, g p true = Except.ok r) :
    (l.filterMap (fun p => (g p true).toOption)).length = l.length := by
  induction l with
  | nil => rfl
  | cons p rest ih =>
    obtain ⟨r, hr⟩ := hok p (List.mem_cons_self p rest)
    have ihr := ih (fun q hq => hok q (List.mem_cons_of_mem p hq))
    have hsome : (g p true).toOption = some r := by rw [hr]; rfl
    simp only [List.filterMap_cons, hsome, List.length_cons, ihr]

/-- C3: when the compiled list starts empty and every glob of
`VfsUploadExclude` compiles, the list coming out of `Init` is exactly the
translation of the glob list, in order, and has the same length. -/
theorem init_all_globs_compiled (g : String → Bool → Except String Regexp)
    (opt : Options) (hempty : opt.VfsExcludeRegex = [])
    (hok : ∀ p ∈ opt.VfsUploadExclude, ∃ r, g p true = Except.ok r) :
    (Options.Init g opt).1.VfsExcludeRegex
        = opt.VfsUploadExclude.filterMap (fun p => (g p true).toOption)
    ∧ (Options.Init g opt).1.VfsExcludeRegex.length
        = opt.VfsUploadExclude.length := by
  have h := init_fst_vfsExcludeRegex g opt
  rw [hempty, List.nil_append] at h
  exact ⟨h, by rw [h]; exact filterMap_toOption_length g _ hok⟩

/-- A translator that accepts every glob, for concrete evaluation. -/
def okCompiler : String → Bool → Except String Regexp :=
  fun s _ => Except.ok ⟨s⟩

/-- A concrete record with two globs and an empty compiled list. -/
def optC3 : Options :=
  { DefaultOpt "linux" with VfsUploadExclude := ["*.tmp", "cache/**"] }

theorem init_all_globs_compiled_witness :
    (Options.Init okCompiler optC3).1.VfsExcludeRegex
        = optC3.VfsUploadExclude.filterMap (fun p => (okCompiler p true).toOption)
    ∧ (Options.Init okCompiler optC3).1.VfsExcludeRegex.length
        = optC3.VfsUploadExclude.length :=
  init_all_globs_compiled okCompiler optC3 rfl
    (fun p _ => ⟨⟨p⟩, rfl⟩)

theorem filterMap_diag_none (g : String → Bool → Except String Regexp)
    (l : List String) (hok : ∀ p ∈ l, ∃ r, g p true = Except.ok r) :
    l.filterMap (diagOf g) = [] := by
  induction l with
  | nil => rfl
  | cons p rest ih =>
    obtain ⟨r, hr⟩ := hok p (List.mem_cons_self p rest)
    have ihr := ih (fun q hq => hok q (List.mem_cons_of_mem p hq))
    simp [List.filterMap_cons, diagOf, hr, ihr]

/-- C4: with an empty starting list and exactly one malformed glob `bad`
among well-formed ones (`xs` before it, `ys` after it), `Init` compiles
everything but `bad` (one fewer entry than globs, with the well-formed
entries translated in their original relative order — in particular the
globs after `bad` are still processed) and emits exactly one diagnostic,
naming `bad` and its compilation error; nothing else signals the failure to
the caller. -/
theorem init_one_malformed_glob (g : String → Bool → Except String Regexp)
    (opt : Options) (xs ys : List String) (bad e : String)
    (hempty : opt.VfsExcludeRegex = [])
    (hsplit : opt.VfsUploadExclude = xs ++ bad :: ys)
    (hbad : g bad true = Except.error e)
    (hok : ∀ p ∈ xs ++ ys, ∃ r, g p true = Except.ok r) :
    (Options.Init g opt).1.VfsExcludeRegex.length
        = opt.VfsUploadExclude.length - 1
    ∧ (Options.Init g opt).1.VfsExcludeRegex
        = (xs ++ ys).filterMap (fun p => (g p true).toOption)
    ∧ (Options.Init g opt).2.1 = [⟨bad, e⟩] := by
  have hxs : ∀ p ∈ xs, ∃ r, g p true = Except.ok r :=
    fun p hp => hok p (List.mem_append_left ys hp)
  have hys : ∀ p ∈ ys, ∃ r, g p true = Except.ok r :=
    fun p hp => hok p (List.mem_append_right xs hp)
  have hlist : (Options.Init g opt).1.VfsExcludeRegex
      = (xs ++ ys).filterMap (fun p => (g p true).toOption) := by
    rw [init_fst_vfsExcludeRegex, hempty, List.nil_append, hsplit,
      List.filterMap_append, List.filterMap_cons, hbad]
    simp [Except.toOption, List.filterMap_append]
  refine ⟨?_, hlist, ?_⟩
  · rw [hlist, hsplit]
    have hlen : ((xs ++ ys).filterMap (fun p => (g p true).toOption)).length
        = (xs ++ ys).length := filterMap_toOption_length g _ hok
    simp only [hlen, List.length_append, List.length_cons]
    omega
  · rw [init_diags, hsplit, List.filterMap_append, List.filterMap_cons]
    rw [filterMap_diag_none g xs hxs, filterMap_diag_none g ys hys]
    simp [diagOf, hbad]

/-- A translator that rejects exactly the glob consisting of one opening
square bracket, for concrete evaluation. -/
def oneBadCompiler : String → Bool → Except String Regexp :=
  fun s _ => if s = "[" then Except.error "unterminated character class" else Except.ok ⟨s⟩

/-- A concrete record whose glob list has one malformed entry in the middle. -/
def optC4 : Options :=
  { DefaultOpt "linux" with VfsUploadExclude := ["*.tmp", "[", "cache/**"] }

theorem init_one_malformed_glob_witness :
    (Options.Init oneBadCompiler optC4).1.VfsExcludeRegex.length
        = optC4.VfsUploadExclude.length - 1
    ∧ (Options.Init oneBadCompiler optC4).1.VfsExcludeRegex
        = (["*.tmp"] ++ ["cache/**"]).filterMap
            (fun p => (oneBadCompiler p true).toOption)
    ∧ (Options.Init oneBadCompiler optC4).2.1
        = [⟨"[", "unterminated character class"⟩] :=
  init_one_malformed_glob oneBadCompiler optC4 ["*.tmp"] ["cache/**"] "["
    "unterminated character class" rfl rfl rfl
    (by
      intro p hp
      simp only [List.mem_append, List.mem_singleton] at hp
      rcases hp with h | h <;> subst h <;> exact ⟨⟨_⟩, rfl⟩)

/-- C10: when the compiled exclude-pattern list is non-empty before `Init`,
the pre-existing entries are retained in place, unvalidated, and the newly
compiled patterns are appended after them. -/
theorem init_preserves_existing_patterns (g : String → Bool → Except String Regexp)
    (opt : Options) (_hne : opt.VfsExcludeRegex ≠ []) :
    (Options.Init g opt).1.VfsExcludeRegex
      = opt.VfsExcludeRegex
        ++ opt.VfsUploadExclude.filterMap (fun p => (g p true).toOption) :=
  init_fst_vfsExcludeRegex g opt

/-- A concrete record with a pre-existing compiled entry. -/
def optC10 : Options :=
  { DefaultOpt "linux" with
      VfsUploadExclude := ["*.log"],
      VfsExcludeRegex := [⟨"preexisting"⟩] }

theorem init_preserves_existing_patterns_witness :
    optC10.VfsExcludeRegex ≠ []
    ∧ (Options.Init okCompiler optC10).1.VfsExcludeRegex
        = optC10.VfsExcludeRegex
          ++ optC10.VfsUploadExclude.filterMap
              (fun p => (okCompiler p true).toOption) :=
  ⟨by decide, init_preserves_existing_patterns okCompiler optC10 (by decide)⟩

theorem masked_lor_stable (d c m : Nat) :
    (((d &&& c) ||| m) &&& c) ||| m = (d &&& c) ||| m := by
  apply Nat.eq_of_testBit_eq
  intro i
  simp only [Nat.testBit_and, Nat.testBit_or]
  cases d.testBit i <;> cases c.testBit i <;> cases m.testBit i <;> rfl

theorem land_land_self (x c : Nat) : (x &&& c) &&& c = x &&& c := by
  apply Nat.eq_of_testBit_eq
  intro i
  simp only [Nat.testBit_and]
  cases x.testBit i <;> cases c.testBit i <;> rfl

/-- C8: applying `Init` a second time to its own output leaves the
directory- and file-permission fields unchanged (the repeated umask-AND and
marker-OR are no-ops), but appends every successfully-compiled pattern
again: when the record starts with an empty compiled list and all its globs
compile, the list after two applications is the one-application list
duplicated, so it has exactly twice the length — normalization is not
idempotent. -/
theorem init_not_idempotent (g : String → Bool → Except String Regexp)
    (opt : Options) (hempty : opt.VfsExcludeRegex = [])
    (_hok : ∀ p ∈ opt.VfsUploadExclude, ∃ r, g p true = Except.ok r) :
    (Options.Init g (Options.Init g opt).1).1.DirPerms
        = (Options.Init g opt).1.DirPerms
    ∧ (Options.Init g (Options.Init g opt).1).1.FilePerms
        = (Options.Init g opt).1.FilePerms
    ∧ (Options.Init g (Options.Init g opt).1).1.VfsExcludeRegex
        = (Options.Init g opt).1.VfsExcludeRegex
          ++ (Options.Init g opt).1.VfsExcludeRegex
    ∧ (Options.Init g (Options.Init g opt).1).1.VfsExcludeRegex.length
        = 2 * (Options.Init g opt).1.VfsExcludeRegex.length := by
  have humask : (Options.Init g opt).1.Umask = opt.Umask := rfl
  have e1 : (Options.Init g opt).1.VfsExcludeRegex
      = opt.VfsUploadExclude.filterMap (fun p => (g p true).toOption) := by
    rw [init_fst_vfsExcludeRegex, hempty, List.nil_append]
  have e2 : (Options.Init g (Options.Init g opt).1).1.VfsExcludeRegex
      = (Options.Init g opt).1.VfsExcludeRegex
        ++ opt.VfsUploadExclude.filterMap (fun p => (g p true).toOption) :=
    init_fst_vfsExcludeRegex g (Options.Init g opt).1
  have h3 : (Options.Init g (Options.Init g opt).1).1.VfsExcludeRegex
      = (Options.Init g opt).1.VfsExcludeRegex
        ++ (Options.Init g opt).1.VfsExcludeRegex := by
    rw [e2, e1]
  refine ⟨?_, ?_, h3, ?_⟩
  · rw [init_fst_dirPerms g (Options.Init g opt).1, humask,
      init_fst_dirPerms g opt]
    exact masked_lor_stable _ _ _
  · rw [init_fst_filePerms g (Options.Init g opt).1, humask,
      init_fst_filePerms g opt]
    exact land_land_self _ _
  · rw [h3, List.length_append, Nat.two_mul]

theorem init_not_idempotent_witness :
    optC3.VfsExcludeRegex = []
    ∧ ((Options.Init okCompiler (Options.Init okCompiler optC3).1).1.DirPerms
          = (Options.Init okCompiler optC3).1.DirPerms
      ∧ (Options.Init okCompiler (Options.Init okCompiler optC3).1).1.FilePerms
          = (Options.Init okCompiler optC3).1.FilePerms
      ∧ (Options.Init okCompiler (Options.Init okCompiler optC3).1).1.VfsExcludeRegex
          = (Options.Init okCompiler optC3).1.VfsExcludeRegex
            ++ (Options.Init okCompiler optC3).1.VfsExcludeRegex
      ∧ (Options.Init okCompiler (Options.Init okCompiler optC3).1).1.VfsExcludeRegex.length
          = 2 * (Options.Init okCompiler optC3).1.VfsExcludeRegex.length) :=
  ⟨rfl, init_not_idempotent okCompiler optC3 rfl (fun p _ => ⟨⟨p⟩, rfl⟩)⟩

end VfsCommon
